import Mathlib

/-!
Verification of the Credential Vault & Connection Session Manager of
ais-terminal against its specification.

The repository ships end-to-end UI probe scripts (src/verification/*.py)
that exercise the application through a browser; the core components they
exercise (KeyDeriver, Vault, ProfileRegistry, ResetController,
SessionManager, AuthGate) are not part of the repository sources.  The
definitions below are therefore modelled from the specification (spec.md
sections 3, 4, 6 and 7), which was written from the observed behaviour that
the probe scripts drive.
-/

deriving instance DecidableEq for Except

/-- Modelled from the spec: §6 PIN format contract.  The source repository
holds only the UI probes (verify_auth.py checks the message
"PIN must be exactly 6 digits"); the validation routine itself is missing,
so it is modelled from the spec's words: a PIN is valid iff it is a fixed
6-digit numeric string. -/
def pinFormatValid (pin : String) : Bool :=
  pin.length == 6 && pin.toList.all (fun c => c.isDigit)

/-- A salt for key derivation (spec §3, PinRecord). -/
abbrev Salt := Nat

/-- A derived symmetric key.  Modelled from the spec: §4.1, KeyDeriver is a
deterministic pure function of PIN and salt; the key is modelled abstractly
as the pair of its inputs, which preserves exactly the determinism and
collision behaviour the spec relies on. -/
abbrev Key := String × Salt

/-- Modelled from the spec: §4.1 `derive(pin, salt, params) -> key`.
KeyDeriver is missing from the sources; modelled as the pure pairing of its
inputs (deterministic, distinct PINs with the same salt give distinct keys). -/
def derive (pin : String) (salt : Salt) : Key := (pin, salt)

/-- Modelled from the spec: §3 PinRecord `{salt, verifier, kdf_params}`,
owned by AuthGate, created on first PIN setup. -/
structure PinRecord where
  salt : Salt
  verifier : Key
deriving DecidableEq, Repr

/-- Modelled from the spec: §3 Profile record. -/
structure Profile where
  id : Nat
  name : String
  host : String
  port : Option Nat
  user : String
  authMaterial : String
  createdAt : Nat
  updatedAt : Nat
deriving DecidableEq, Repr

/-- Modelled from the spec: §3 VaultBlob `{ciphertext, nonce, auth_tag,
format_version}`.  Authenticated encryption is modelled abstractly: the blob
records the key it was sealed under together with the plaintext profile set;
decryption under any other key fails as a whole (all-or-nothing, §3). -/
structure VaultBlob where
  encKey : Key
  plaintext : List Profile
  nonce : Nat
deriving DecidableEq, Repr

/-- Modelled from the spec: §3/§4.2, authenticated decryption.  Yields the
full profile set when the key matches the one the blob was sealed under and
fails (no partial list, ever) otherwise. -/
def decryptBlob (key : Key) (vb : VaultBlob) : Option (List Profile) :=
  if vb.encKey = key then some vb.plaintext else none

/-- Modelled from the spec: §4.2/§4.6 lifecycle phase of the vault and
auth gate: `Uninitialized → Locked ⇄ Unlocked`. -/
inductive Phase where
  | uninitialized
  | locked
  | unlocked
deriving DecidableEq, Repr

/-- Modelled from the spec: §7 error taxonomy (the typed results of §4.6,
§4.3, §4.2 and §6). -/
inductive VError where
  | formatError
  | mismatchError
  | alreadyInitialized
  | wrongPin
  | nameRequired
  | hostRequired
  | notFound
  | invalidState
deriving DecidableEq, Repr

/-- Modelled from the spec: the whole persisted and in-memory state of the
core (§3 data model, §4.6 AuthGate holdings).  `kdfCalls` instruments the
number of KeyDeriver invocations so that "rejected before touching
KeyDeriver" (§6) is statable. -/
structure SystemState where
  phase : Phase
  pinRecord : Option PinRecord
  vaultBlob : Option VaultBlob
  cachedKey : Option Key
  memProfiles : Option (List Profile)
  nextId : Nat
  nonceCtr : Nat
  clock : Nat
  kdfCalls : Nat
deriving DecidableEq, Repr

/-- Modelled from the spec: first-run state — no PinRecord, no VaultBlob,
AuthGate `Uninitialized`. -/
def initState : SystemState :=
  { phase := Phase.uninitialized
    pinRecord := none
    vaultBlob := none
    cachedKey := none
    memProfiles := none
    nextId := 0
    nonceCtr := 0
    clock := 0
    kdfCalls := 0 }

/-- Modelled from the spec: §4.6 `setup(pin, confirm_pin)` delegating to
§4.2 `initialize(pin)`: PIN format and match are validated before
KeyDeriver; from `Uninitialized` it derives the key, encrypts an empty
profile set, persists VaultBlob + PinRecord and moves to `Unlocked`;
re-invocation fails with `AlreadyInitialized`. -/
def setup (s : SystemState) (pin confirm : String) :
    Except VError Unit × SystemState :=
  if pinFormatValid pin && pinFormatValid confirm then
    if pin = confirm then
      match s.phase with
      | Phase.uninitialized =>
          let salt : Salt := 0
          let key := derive pin salt
          (Except.ok (),
            { s with
              phase := Phase.unlocked
              pinRecord := some { salt := salt, verifier := key }
              vaultBlob := some { encKey := key, plaintext := [], nonce := s.nonceCtr }
              cachedKey := some key
              memProfiles := some []
              nonceCtr := s.nonceCtr + 1
              kdfCalls := s.kdfCalls + 1 })
      | _ => (Except.error VError.alreadyInitialized, s)
    else (Except.error VError.mismatchError, s)
  else (Except.error VError.formatError, s)

/-- Modelled from the spec: §4.6 `login(pin)` delegating to §4.2
`unlock(pin)`: format is checked before KeyDeriver (§6); from `Locked` the
key is derived and authenticated decryption attempted; success moves to
`Unlocked` holding the decrypted set and key in memory; failure stays
`Locked`, signals `WrongPin`, and mutates neither PinRecord nor VaultBlob. -/
def login (s : SystemState) (pin : String) :
    Except VError Unit × SystemState :=
  if pinFormatValid pin then
    match s.phase with
    | Phase.locked =>
        match s.pinRecord, s.vaultBlob with
        | some pr, some vb =>
            let key := derive pin pr.salt
            let s1 := { s with kdfCalls := s.kdfCalls + 1 }
            match decryptBlob key vb with
            | some ps =>
                (Except.ok (),
                  { s1 with
                    phase := Phase.unlocked
                    cachedKey := some key
                    memProfiles := some ps })
            | none => (Except.error VError.wrongPin, s1)
        | _, _ => (Except.error VError.invalidState, s)
    | _ => (Except.error VError.invalidState, s)
  else (Except.error VError.formatError, s)

/-- Modelled from the spec: §4.2 `lock()`: valid from `Unlocked`, discards
the in-memory key and plaintext buffers, returns to `Locked`. -/
def lockVault (s : SystemState) : Except VError Unit × SystemState :=
  match s.phase with
  | Phase.unlocked =>
      (Except.ok (),
        { s with phase := Phase.locked, cachedKey := none, memProfiles := none })
  | _ => (Except.error VError.invalidState, s)

/-- Modelled from the spec: §4.2 `persist(profiles)`: valid only while
`Unlocked`; re-encrypts the full profile set with a fresh nonce and
atomically replaces VaultBlob. -/
def persist (s : SystemState) (ps : List Profile) : SystemState :=
  match s.cachedKey with
  | some key =>
      { s with
        vaultBlob := some { encKey := key, plaintext := ps, nonce := s.nonceCtr }
        memProfiles := some ps
        nonceCtr := s.nonceCtr + 1 }
  | none => s

/-- Modelled from the spec: the trimming underlying "name must be non-empty
after trim" (§3) — whitespace stripped from both ends, written over the
character list so that it is computable by the kernel. -/
def strTrim (s : String) : String :=
  String.mk
    (((s.toList.dropWhile Char.isWhitespace).reverse.dropWhile
        Char.isWhitespace).reverse)

/-- Modelled from the spec: §4.3 create/update draft (the form fields of the
probes debug_edit_flow.py and verify_error_modal.py). -/
structure Draft where
  name : String
  host : String
  port : Option Nat
  user : String
  authMaterial : String
deriving DecidableEq, Repr

/-- Modelled from the spec: §4.3 `create(draft)`: validates `name`
non-empty after trim and `host` non-empty before any Vault interaction;
assigns a new immutable `id` and persists the updated set. -/
def createProfile (s : SystemState) (d : Draft) :
    Except VError Profile × SystemState :=
  if strTrim d.name = "" then (Except.error VError.nameRequired, s)
  else if strTrim d.host = "" then (Except.error VError.hostRequired, s)
  else
    match s.phase, s.memProfiles with
    | Phase.unlocked, some ps =>
        let p : Profile :=
          { id := s.nextId
            name := d.name
            host := d.host
            port := d.port
            user := d.user
            authMaterial := d.authMaterial
            createdAt := s.clock
            updatedAt := s.clock }
        (Except.ok p,
          persist { s with nextId := s.nextId + 1, clock := s.clock + 1 } (ps ++ [p]))
    | _, _ => (Except.error VError.invalidState, s)

/-- Modelled from the spec: §4.3 `update(id, draft)`: same validation before
any Vault interaction; `NotFound` when the id is absent; otherwise replaces
in place preserving `id` and `created_at`, bumping `updated_at`. -/
def updateProfile (s : SystemState) (i : Nat) (d : Draft) :
    Except VError Profile × SystemState :=
  if strTrim d.name = "" then (Except.error VError.nameRequired, s)
  else if strTrim d.host = "" then (Except.error VError.hostRequired, s)
  else
    match s.phase, s.memProfiles with
    | Phase.unlocked, some ps =>
        match ps.find? (fun p => p.id == i) with
        | none => (Except.error VError.notFound, s)
        | some old =>
            let p : Profile :=
              { id := old.id
                name := d.name
                host := d.host
                port := d.port
                user := d.user
                authMaterial := d.authMaterial
                createdAt := old.createdAt
                updatedAt := s.clock }
            (Except.ok p,
              persist { s with clock := s.clock + 1 }
                (ps.map (fun q => if q.id = i then p else q)))
    | _, _ => (Except.error VError.invalidState, s)

/-- Modelled from the spec: §4.3 `delete(id)`: removes unconditionally once
invoked and persists; `NotFound` when the id is absent. -/
def deleteProfile (s : SystemState) (i : Nat) :
    Except VError Unit × SystemState :=
  match s.phase, s.memProfiles with
  | Phase.unlocked, some ps =>
      if ps.any (fun p => p.id == i) then
        (Except.ok (), persist s (ps.filter (fun p => !(p.id == i))))
      else (Except.error VError.notFound, s)
  | _, _ => (Except.error VError.invalidState, s)

/-- Modelled from the spec: §4.3 `list()`: the ordered profile set, only
while `Unlocked`. -/
def listProfiles (s : SystemState) : Except VError (List Profile) :=
  match s.phase, s.memProfiles with
  | Phase.unlocked, some ps => Except.ok ps
  | _, _ => Except.error VError.invalidState

/-- Modelled from the spec: §4.3 `get(id)` — the full Profile (including
key material) is fetched only by explicit get for use in SessionManager,
and only while the vault is `Unlocked`. -/
def getProfile (s : SystemState) (i : Nat) : Except VError Profile :=
  match s.phase, s.memProfiles with
  | Phase.unlocked, some ps =>
      match ps.find? (fun q => q.id == i) with
      | some q => Except.ok q
      | none => Except.error VError.notFound
  | _, _ => Except.error VError.invalidState

/-- Modelled from the spec: §4.4 `reset()`: irreversibly discards PinRecord
and VaultBlob in one transactional step and returns AuthGate to
`Uninitialized`; always succeeds, from any state. -/
def reset (s : SystemState) : Except VError Unit × SystemState :=
  (Except.ok (),
    { s with
      phase := Phase.uninitialized
      pinRecord := none
      vaultBlob := none
      cachedKey := none
      memProfiles := none })

/-- Modelled from the spec: §4.5 failure classification `FailureKind`,
distinguishing `AuthenticationRejected`, `Unreachable` and `Advisory`. -/
inductive FailureKind where
  | authenticationRejected
  | unreachable
  | advisory
deriving DecidableEq, Repr

/-- Modelled from the spec: §3 per-profile transient `SessionState`. -/
inductive SessionState where
  | idle
  | connecting
  | connected
  | failed (k : FailureKind)
  | disconnected
deriving DecidableEq, Repr

/-- Modelled from the spec: the events driving the §4.5 per-profile state
machine (connect request, transport outcome, disconnect). -/
inductive SessionEvent where
  | connectRequested
  | transportSucceeded
  | transportFailed (k : FailureKind)
  | disconnectRequested
deriving DecidableEq, Repr

/-- Modelled from the spec: §4.5 transition table of the per-profile session
state machine.  `none` means the event is not a valid transition from that
state. -/
def sessionNext (st : SessionState) (ev : SessionEvent) : Option SessionState :=
  match st, ev with
  | SessionState.idle, SessionEvent.connectRequested => some SessionState.connecting
  | SessionState.failed _, SessionEvent.connectRequested => some SessionState.connecting
  | SessionState.disconnected, SessionEvent.connectRequested => some SessionState.connecting
  | SessionState.connecting, SessionEvent.transportSucceeded => some SessionState.connected
  | SessionState.connecting, SessionEvent.transportFailed k => some (SessionState.failed k)
  | SessionState.connected, SessionEvent.disconnectRequested => some SessionState.disconnected
  | _, _ => none

/-- Modelled from the spec: the outcome the external transport client
reports for one connection attempt (§4.5; verify_error_modal.py exercises
the unreachable case against `invalid.local.test`). -/
inductive TransportResult where
  | ok
  | unreachable
  | authRejected
deriving DecidableEq, Repr

/-- Modelled from the spec: the session event produced by a transport
outcome (§4.5 failure classification). -/
def transportEvent : TransportResult → SessionEvent
  | TransportResult.ok => SessionEvent.transportSucceeded
  | TransportResult.unreachable => SessionEvent.transportFailed FailureKind.unreachable
  | TransportResult.authRejected =>
      SessionEvent.transportFailed FailureKind.authenticationRejected

/-- Modelled from the spec: the sequence of states one `connect(profile_id)`
attempt visits, starting from `Idle`, as driven through `sessionNext` by the
connect request and then the transport outcome. -/
def connectAttemptTrace (t : TransportResult) : List SessionState :=
  SessionState.idle ::
    match sessionNext SessionState.idle SessionEvent.connectRequested with
    | none => []
    | some s1 =>
        s1 ::
          match sessionNext s1 (transportEvent t) with
          | none => []
          | some s2 => [s2]

/-- Modelled from the spec: §4.5/§7 presentation channels — the hard-error
modal ("Connection Error", verify_error_modal.py) versus the non-error
suggestion channel ("Suggestion", verify_modal.py). -/
inductive PresentationChannel where
  | hardErrorModal
  | suggestionChannel
deriving DecidableEq, Repr

/-- Modelled from the spec: §4.5 routing of a classified failure to its
presentation channel: `AuthenticationRejected` and `Unreachable` are
surfaced as hard errors, `Advisory` on the distinct non-error channel. -/
def channelFor : FailureKind → PresentationChannel
  | FailureKind.authenticationRejected => PresentationChannel.hardErrorModal
  | FailureKind.unreachable => PresentationChannel.hardErrorModal
  | FailureKind.advisory => PresentationChannel.suggestionChannel

/-- Outcome of running an operation through the PIN-gating UI flow. -/
structure GatedOutcome (α : Type) where
  demandedPin : Bool
  result : Except VError α
  next : SystemState
deriving Repr

/-- Modelled from the spec: the gating flow the probes observe (§4.6 with
verify_auth.py and debug_edit_flow.py): an operation needing vault key
material requested while `Locked` is not failed — the system demands a PIN
entry, and after a successful login the operation runs with its normal
result; while `Unlocked` the operation runs directly. -/
def runGated {α : Type} (s : SystemState) (pin : String)
    (op : SystemState → Except VError α × SystemState) : GatedOutcome α :=
  match s.phase with
  | Phase.locked =>
      match login s pin with
      | (Except.ok _, s1) =>
          { demandedPin := true, result := (op s1).1, next := (op s1).2 }
      | (Except.error e, s1) =>
          { demandedPin := true, result := Except.error e, next := s1 }
  | _ => { demandedPin := false, result := (op s).1, next := (op s).2 }

/-- Modelled from the spec: §4.5 `connect(profile_id)` — fetches the full
Profile from ProfileRegistry (which requires the unlocked vault), hands it
to the external transport client whose outcome is `t`, and drives the
per-profile state machine; its normal result is the visited session trace.
SessionState is transient and never persisted (§3), so the system state is
returned unchanged. -/
def connectProfile (s : SystemState) (i : Nat) (t : TransportResult) :
    Except VError (List SessionState) × SystemState :=
  match getProfile s i with
  | Except.ok _ => (Except.ok (connectAttemptTrace t), s)
  | Except.error e => (Except.error e, s)

/-- The profile mutations of §4.3 (create / update / delete), as a sequence
element for the round-trip property of §8. -/
inductive MutOp where
  | create (d : Draft)
  | update (i : Nat) (d : Draft)
  | delete (i : Nat)
deriving Repr

/-- State reached after one profile mutation (its typed result is
discarded; a rejected mutation leaves the state unchanged). -/
def applyMut (s : SystemState) : MutOp → SystemState
  | MutOp.create d => (createProfile s d).2
  | MutOp.update i d => (updateProfile s i d).2
  | MutOp.delete i => (deleteProfile s i).2

/-- State reached after a sequence of profile mutations. -/
def runMuts (s : SystemState) (ops : List MutOp) : SystemState :=
  ops.foldl applyMut s

/-- The full command surface of §6, as a step alphabet for reachability. -/
inductive Op where
  | setupOp (pin confirm : String)
  | loginOp (pin : String)
  | lockOp
  | createOp (d : Draft)
  | updateOp (i : Nat) (d : Draft)
  | deleteOp (i : Nat)
  | resetOp
deriving Repr

/-- State reached after one command of the §6 surface. -/
def applyOp (s : SystemState) : Op → SystemState
  | Op.setupOp pin confirm => (setup s pin confirm).2
  | Op.loginOp pin => (login s pin).2
  | Op.lockOp => (lockVault s).2
  | Op.createOp d => (createProfile s d).2
  | Op.updateOp i d => (updateProfile s i d).2
  | Op.deleteOp i => (deleteProfile s i).2
  | Op.resetOp => (reset s).2

/-- The states of the system reachable from first-run through the §6
command surface. -/
inductive Reachable : SystemState → Prop where
  | init : Reachable initState
  | step (s : SystemState) (op : Op) : Reachable s → Reachable (applyOp s op)

/-- The unlocked-session invariant for master PIN `p`: the gate is
`Unlocked`, PinRecord holds the key derived from `p`, the cached key is that
key, and VaultBlob is sealed under it with the in-memory profile set as its
content. -/
def UnlockedInv (p : String) (s : SystemState) : Prop :=
  s.phase = Phase.unlocked ∧
  s.pinRecord = some { salt := 0, verifier := derive p 0 } ∧
  s.cachedKey = some (derive p 0) ∧
  ∃ ps n,
    s.vaultBlob = some { encKey := derive p 0, plaintext := ps, nonce := n } ∧
    s.memProfiles = some ps

/-- The locked invariant for master PIN `p`: the gate is `Locked` and the
persisted artifacts were produced under the key derived from `p`. -/
def LockedInv (p : String) (s : SystemState) : Prop :=
  s.phase = Phase.locked ∧
  s.pinRecord = some { salt := 0, verifier := derive p 0 } ∧
  ∃ ps n,
    s.vaultBlob = some { encKey := derive p 0, plaintext := ps, nonce := n }

/-- The artifact-pairing invariant of §4.4: PinRecord exists iff VaultBlob
exists; and while `Unlocked` the in-memory holdings are present. -/
def ArtifactInv (s : SystemState) : Prop :=
  (s.pinRecord.isSome ↔ s.vaultBlob.isSome) ∧
  (s.phase = Phase.unlocked →
    s.pinRecord.isSome ∧ s.cachedKey.isSome ∧ s.memProfiles.isSome)

/-- A sample mutation sequence (create, rename, create, delete) used to
exercise the round-trip property on concrete inputs. -/
def sampleMuts : List MutOp :=
  [MutOp.create
      { name := "Prod Server", host := "10.0.0.1", port := none,
        user := "root", authMaterial := "pem" },
   MutOp.update 0
      { name := "Prod Server 2", host := "10.0.0.2", port := some 22,
        user := "admin", authMaterial := "pem2" },
   MutOp.create
      { name := "Dev", host := "dev.local", port := none,
        user := "dev", authMaterial := "k" },
   MutOp.delete 1]

/-- A sample valid draft (the profile the probes create). -/
def sampleDraft : Draft :=
  { name := "Prod Server", host := "10.0.0.1", port := none,
    user := "root", authMaterial := "pem" }

/-- The profile that creating the sample draft on a freshly set up vault
produces. -/
def sampleProfile : Profile :=
  { id := 0, name := "Prod Server", host := "10.0.0.1", port := none,
    user := "root", authMaterial := "pem", createdAt := 0, updatedAt := 0 }

/-- The locked state after a first setup with PIN 123456 and creation of
the sample profile, used as a concrete input. -/
def lockedDemoWithProfile : SystemState :=
  (lockVault
    (createProfile (setup initState "123456" "123456").2 sampleDraft).2).2

theorem setup_initState_eq (p : String) (hp : pinFormatValid p = true) :
    setup initState p p =
      (Except.ok (),
        { phase := Phase.unlocked
          pinRecord := some { salt := 0, verifier := derive p 0 }
          vaultBlob := some { encKey := derive p 0, plaintext := [], nonce := 0 }
          cachedKey := some (derive p 0)
          memProfiles := some []
          nextId := 0
          nonceCtr := 1
          clock := 0
          kdfCalls := 1 }) := by
  simp [setup, initState, hp]

theorem setup_unlockedInv (p : String) (hp : pinFormatValid p = true) :
    UnlockedInv p (setup initState p p).2 := by
  rw [setup_initState_eq p hp]
  exact ⟨rfl, rfl, rfl, [], 0, rfl, rfl⟩

theorem persist_unlockedInv (p : String) (s : SystemState) (ps : List Profile)
    (h : UnlockedInv p s) : UnlockedInv p (persist s ps) := by
  obtain ⟨h1, h2, h3, qs, n, h4, h5⟩ := h
  obtain ⟨ph, pr, vb, ck, mp, nid, nc, cl, kc⟩ := s
  dsimp only at h1 h2 h3 h4 h5
  subst h1 h2 h3 h4 h5
  exact ⟨rfl, rfl, rfl, ps, nc, rfl, rfl⟩

theorem createProfile_unlockedInv (p : String) (d : Draft) (s : SystemState)
    (h : UnlockedInv p s) : UnlockedInv p (createProfile s d).2 := by
  have h' := h
  obtain ⟨h1, h2, h3, ps, n, h4, h5⟩ := h
  obtain ⟨ph, pr, vb, ck, mp, nid, nc, cl, kc⟩ := s
  dsimp only at h1 h2 h3 h4 h5
  subst h1 h2 h3 h4 h5
  by_cases hn : strTrim d.name = ""
  · simp [createProfile, hn]
    exact ⟨rfl, rfl, rfl, ps, n, rfl, rfl⟩
  · by_cases hh : strTrim d.host = ""
    · simp [createProfile, hn, hh]
      exact ⟨rfl, rfl, rfl, ps, n, rfl, rfl⟩
    · simp [createProfile, hn, hh, persist]
      exact ⟨rfl, rfl, rfl, _, nc, rfl, rfl⟩

theorem updateProfile_unlockedInv (p : String) (i : Nat) (d : Draft)
    (s : SystemState) (h : UnlockedInv p s) :
    UnlockedInv p (updateProfile s i d).2 := by
  obtain ⟨h1, h2, h3, ps, n, h4, h5⟩ := h
  obtain ⟨ph, pr, vb, ck, mp, nid, nc, cl, kc⟩ := s
  dsimp only at h1 h2 h3 h4 h5
  subst h1 h2 h3 h4 h5
  by_cases hn : strTrim d.name = ""
  · simp [updateProfile, hn]
    exact ⟨rfl, rfl, rfl, ps, n, rfl, rfl⟩
  · by_cases hh : strTrim d.host = ""
    · simp [updateProfile, hn, hh]
      exact ⟨rfl, rfl, rfl, ps, n, rfl, rfl⟩
    · cases hf : ps.find? (fun q => q.id == i) with
      | none =>
          simp [updateProfile, hn, hh, hf]
          exact ⟨rfl, rfl, rfl, ps, n, rfl, rfl⟩
      | some old =>
          simp [updateProfile, hn, hh, hf, persist]
          exact ⟨rfl, rfl, rfl, _, nc, rfl, rfl⟩

theorem deleteProfile_unlockedInv (p : String) (i : Nat) (s : SystemState)
    (h : UnlockedInv p s) : UnlockedInv p (deleteProfile s i).2 := by
  obtain ⟨h1, h2, h3, ps, n, h4, h5⟩ := h
  obtain ⟨ph, pr, vb, ck, mp, nid, nc, cl, kc⟩ := s
  dsimp only at h1 h2 h3 h4 h5
  subst h1 h2 h3 h4 h5
  by_cases ha : ps.any (fun q => q.id == i)
  · simp [deleteProfile, ha, persist]
    exact ⟨rfl, rfl, rfl, _, nc, rfl, rfl⟩
  · simp [deleteProfile, ha]
    exact ⟨rfl, rfl, rfl, ps, n, rfl, rfl⟩

theorem applyMut_unlockedInv (p : String) (s : SystemState) (op : MutOp)
    (h : UnlockedInv p s) : UnlockedInv p (applyMut s op) := by
  cases op with
  | create d => exact createProfile_unlockedInv p d s h
  | update i d => exact updateProfile_unlockedInv p i d s h
  | delete i => exact deleteProfile_unlockedInv p i s h

theorem runMuts_unlockedInv (p : String) (ops : List MutOp) :
    ∀ s : SystemState, UnlockedInv p s → UnlockedInv p (runMuts s ops) := by
  induction ops with
  | nil => exact fun s h => h
  | cons op rest ih =>
      intro s h
      exact ih (applyMut s op) (applyMut_unlockedInv p s op h)

theorem lock_login_roundtrip (p : String) (hp : pinFormatValid p = true)
    (s : SystemState) (h : UnlockedInv p s) :
    (lockVault s).1 = Except.ok () ∧
    (login (lockVault s).2 p).1 = Except.ok () ∧
    UnlockedInv p (login (lockVault s).2 p).2 ∧
    listProfiles (login (lockVault s).2 p).2 = listProfiles s := by
  obtain ⟨h1, h2, h3, ps, n, h4, h5⟩ := h
  obtain ⟨ph, pr, vb, ck, mp, nid, nc, cl, kc⟩ := s
  dsimp only at h1 h2 h3 h4 h5
  subst h1 h2 h3 h4 h5
  refine ⟨rfl, ?_, ?_, ?_⟩
  · simp [lockVault, login, hp, decryptBlob, derive]
  · simp [lockVault, login, hp, decryptBlob, derive]
    exact ⟨rfl, rfl, rfl, ps, n, rfl, rfl⟩
  · simp [lockVault, login, hp, decryptBlob, derive, listProfiles]

theorem setup_artifactInv (s : SystemState) (pin confirm : String)
    (h : ArtifactInv s) : ArtifactInv (setup s pin confirm).2 := by
  obtain ⟨h1, h2⟩ := h
  unfold setup
  split
  · split
    · split
      · exact ⟨by simp, by simp⟩
      · exact ⟨h1, h2⟩
    · exact ⟨h1, h2⟩
  · exact ⟨h1, h2⟩

theorem login_artifactInv (s : SystemState) (pin : String)
    (h : ArtifactInv s) : ArtifactInv (login s pin).2 := by
  obtain ⟨h1, h2⟩ := h
  unfold login
  split
  · split
    · split
      · dsimp only
        split
        · exact ⟨by simp [*], fun _ => ⟨by simp [*], by simp, by simp⟩⟩
        · exact ⟨by simpa using h1, by simp [*]⟩
      · exact ⟨h1, h2⟩
    · exact ⟨h1, h2⟩
  · exact ⟨h1, h2⟩

theorem lockVault_artifactInv (s : SystemState) (h : ArtifactInv s) :
    ArtifactInv (lockVault s).2 := by
  obtain ⟨h1, h2⟩ := h
  unfold lockVault
  split
  · exact ⟨by simpa using h1, by simp⟩
  · exact ⟨h1, h2⟩

theorem persist_artifactInv (s : SystemState) (ps : List Profile)
    (h : ArtifactInv s) (hpr : s.pinRecord.isSome) :
    ArtifactInv (persist s ps) := by
  obtain ⟨h1, h2⟩ := h
  unfold persist
  split
  · refine ⟨by simpa using hpr, fun _ => ⟨by simpa using hpr, by simp [*], by simp⟩⟩
  · exact ⟨h1, h2⟩

theorem createProfile_artifactInv (s : SystemState) (d : Draft)
    (h : ArtifactInv s) : ArtifactInv (createProfile s d).2 := by
  unfold createProfile
  split
  · exact h
  · split
    · exact h
    · split
      · exact persist_artifactInv _ _ ⟨by simpa using h.1, by simpa using h.2⟩
          (by simpa using (h.2 (by assumption)).1)
      · exact h

theorem updateProfile_artifactInv (s : SystemState) (i : Nat) (d : Draft)
    (h : ArtifactInv s) : ArtifactInv (updateProfile s i d).2 := by
  unfold updateProfile
  split
  · exact h
  · split
    · exact h
    · split
      · split
        · exact h
        · exact persist_artifactInv _ _ ⟨by simpa using h.1, by simpa using h.2⟩
            (by simpa using (h.2 (by assumption)).1)
      · exact h

theorem deleteProfile_artifactInv (s : SystemState) (i : Nat)
    (h : ArtifactInv s) : ArtifactInv (deleteProfile s i).2 := by
  unfold deleteProfile
  split
  · split
    · exact persist_artifactInv _ _ ⟨by simpa using h.1, by simpa using h.2⟩
        (by simpa using (h.2 (by assumption)).1)
    · exact h
  · exact h

theorem reset_artifactInv (s : SystemState) : ArtifactInv (reset s).2 :=
  ⟨by simp [reset], by simp [reset]⟩

theorem applyOp_artifactInv (s : SystemState) (op : Op) (h : ArtifactInv s) :
    ArtifactInv (applyOp s op) := by
  cases op with
  | setupOp pin confirm => exact setup_artifactInv s pin confirm h
  | loginOp pin => exact login_artifactInv s pin h
  | lockOp => exact lockVault_artifactInv s h
  | createOp d => exact createProfile_artifactInv s d h
  | updateOp i d => exact updateProfile_artifactInv s i d h
  | deleteOp i => exact deleteProfile_artifactInv s i h
  | resetOp => exact reset_artifactInv s

theorem reachable_artifactInv (s : SystemState) (h : Reachable s) :
    ArtifactInv s := by
  induction h with
  | init => exact ⟨by simp [initState], by simp [initState]⟩
  | step t op _ ih => exact applyOp_artifactInv t op ih

theorem login_badFormat (w : String) (hw : pinFormatValid w = false)
    (s : SystemState) : login s w = (Except.error VError.formatError, s) := by
  simp [login, hw]

theorem login_ok_of_lockedInv (p : String) (hp : pinFormatValid p = true)
    (s : SystemState) (h : LockedInv p s) :
    (login s p).1 = Except.ok () ∧ UnlockedInv p (login s p).2 ∧
    (login s p).2.vaultBlob = s.vaultBlob := by
  obtain ⟨h1, h2, ps, n, h3⟩ := h
  obtain ⟨ph, pr, vb, ck, mp, nid, nc, cl, kc⟩ := s
  dsimp only at h1 h2 h3
  subst h1 h2 h3
  refine ⟨?_, ?_, ?_⟩
  · simp [login, hp, decryptBlob, derive]
  · simp [login, hp, decryptBlob, derive]
    exact ⟨rfl, rfl, rfl, ps, n, rfl, rfl⟩
  · simp [login, hp, decryptBlob, derive]

theorem find_some_of_mem_id (l : List Profile) (q : Profile) (i : Nat)
    (hm : q ∈ l) (hid : q.id = i) :
    ∃ r, l.find? (fun x => x.id == i) = some r := by
  induction l with
  | nil => cases hm
  | cons a t ih =>
      rcases List.mem_cons.mp hm with h1 | h1
      · subst h1
        exact ⟨q, by simp [List.find?, hid]⟩
      · by_cases ha : (a.id == i) = true
        · exact ⟨a, by simp [List.find?, ha]⟩
        · obtain ⟨r, hr⟩ := ih h1
          exact ⟨r, by simp [List.find?, ha, hr]⟩

theorem login_wrong_pin (p w : String) (hw : pinFormatValid w = true)
    (hne : w ≠ p) (s : SystemState) (h : LockedInv p s) :
    (login s w).1 = Except.error VError.wrongPin ∧
    (login s w).2.phase = Phase.locked ∧
    (login s w).2.pinRecord = s.pinRecord ∧
    (login s w).2.vaultBlob = s.vaultBlob ∧
    LockedInv p (login s w).2 := by
  obtain ⟨h1, h2, ps, n, h3⟩ := h
  obtain ⟨ph, pr, vb, ck, mp, nid, nc, cl, kc⟩ := s
  dsimp only at h1 h2 h3
  subst h1 h2 h3
  refine ⟨?_, ?_, ?_, ?_, ?_⟩
  · simp [login, hw, decryptBlob, derive, Ne.symm hne]
  · simp [login, hw, decryptBlob, derive, Ne.symm hne]
  · simp [login, hw, decryptBlob, derive, Ne.symm hne]
  · simp [login, hw, decryptBlob, derive, Ne.symm hne]
  · simp [login, hw, decryptBlob, derive, Ne.symm hne]
    exact ⟨rfl, rfl, ps, n, rfl⟩

theorem setup_lock_lockedInv (p : String) (hp : pinFormatValid p = true) :
    LockedInv p (lockVault (setup initState p p).2).2 := by
  rw [setup_initState_eq p hp]
  exact ⟨rfl, rfl, [], 0, rfl⟩

theorem createProfile_ok (p : String) (s : SystemState) (d : Draft)
    (h : UnlockedInv p s) (hn : strTrim d.name ≠ "") (hh : strTrim d.host ≠ "") :
    ∃ prof, (createProfile s d).1 = Except.ok prof ∧
      prof.name = d.name ∧ prof.host = d.host := by
  obtain ⟨h1, h2, h3, ps, n, h4, h5⟩ := h
  obtain ⟨ph, pr, vb, ck, mp, nid, nc, cl, kc⟩ := s
  dsimp only at h1 h2 h3 h4 h5
  subst h1 h2 h3 h4 h5
  simp [createProfile, hn, hh]

/-- C1: for every valid 6-digit PIN `p`, `setup(p,p)` succeeds with an empty
profile set, and for any sequence of create/update/delete mutations run
while unlocked, `lock()` then `login(p)` succeeds and `list()` afterwards
returns exactly the profile set the mutations produced (content equality,
ids and all field values preserved). -/
theorem c1_setup_mutate_lock_login_roundtrip (p : String)
    (hp : pinFormatValid p = true) (ops : List MutOp) :
    (setup initState p p).1 = Except.ok () ∧
    listProfiles (setup initState p p).2 = Except.ok [] ∧
    (lockVault (runMuts (setup initState p p).2 ops)).1 = Except.ok () ∧
    (login (lockVault (runMuts (setup initState p p).2 ops)).2 p).1 =
      Except.ok () ∧
    listProfiles (login (lockVault (runMuts (setup initState p p).2 ops)).2 p).2 =
      listProfiles (runMuts (setup initState p p).2 ops) := by
  have hstart := setup_unlockedInv p hp
  have hrun := runMuts_unlockedInv p ops _ hstart
  have hrt := lock_login_roundtrip p hp _ hrun
  refine ⟨?_, ?_, hrt.1, hrt.2.1, hrt.2.2.2⟩
  · rw [setup_initState_eq p hp]
  · rw [setup_initState_eq p hp]
    rfl

theorem c1_roundtrip_witness :
    pinFormatValid "123456" = true ∧
    ((setup initState "123456" "123456").1 = Except.ok () ∧
     listProfiles (setup initState "123456" "123456").2 = Except.ok [] ∧
     (lockVault (runMuts (setup initState "123456" "123456").2 sampleMuts)).1 =
       Except.ok () ∧
     (login (lockVault
         (runMuts (setup initState "123456" "123456").2 sampleMuts)).2
         "123456").1 = Except.ok () ∧
     listProfiles (login (lockVault
         (runMuts (setup initState "123456" "123456").2 sampleMuts)).2
         "123456").2 =
       listProfiles (runMuts (setup initState "123456" "123456").2 sampleMuts)) :=
  ⟨by decide,
    c1_setup_mutate_lock_login_roundtrip "123456" (by decide) sampleMuts⟩

/-- C2 counterexample: the claim quantifies over every PIN `w ≠ p`, but for
the 4-digit `w = "1234"` after a setup with `p = "123456"`, login fails with
`FormatError` (rejected by the §6 format contract before KeyDeriver), not
with `WrongPin`, so the claim as stated is false at this input. -/
theorem c2_wrong_pin_counterexample :
    (login (lockVault (setup initState "123456" "123456").2).2 "1234").1 =
      Except.error VError.formatError ∧
    (login (lockVault (setup initState "123456" "123456").2).2 "1234").1 ≠
      Except.error VError.wrongPin := by
  decide

/-- C2 (amended to valid-format PINs): for every valid 6-digit PIN `w`
different from the PIN `p` of a successful setup, `login(w)` from the
locked state fails with `WrongPin`, leaves the system `Locked`, leaves
PinRecord and VaultBlob identical to their values before the call, and a
subsequent `login(p)` still succeeds. -/
theorem c2_wrong_pin_rejected (p w : String) (hp : pinFormatValid p = true)
    (hw : pinFormatValid w = true) (hne : w ≠ p) :
    (login (lockVault (setup initState p p).2).2 w).1 =
      Except.error VError.wrongPin ∧
    (login (lockVault (setup initState p p).2).2 w).2.phase = Phase.locked ∧
    (login (lockVault (setup initState p p).2).2 w).2.pinRecord =
      (lockVault (setup initState p p).2).2.pinRecord ∧
    (login (lockVault (setup initState p p).2).2 w).2.vaultBlob =
      (lockVault (setup initState p p).2).2.vaultBlob ∧
    (login ((login (lockVault (setup initState p p).2).2 w).2) p).1 =
      Except.ok () := by
  have hL := setup_lock_lockedInv p hp
  have hwp := login_wrong_pin p w hw hne _ hL
  exact ⟨hwp.1, hwp.2.1, hwp.2.2.1, hwp.2.2.2.1,
    (login_ok_of_lockedInv p hp _ hwp.2.2.2.2).1⟩

theorem c2_wrong_pin_rejected_witness :
    pinFormatValid "123456" = true ∧
    pinFormatValid "000000" = true ∧
    "000000" ≠ "123456" ∧
    ((login (lockVault (setup initState "123456" "123456").2).2 "000000").1 =
       Except.error VError.wrongPin ∧
     (login (lockVault (setup initState "123456" "123456").2).2
         "000000").2.phase = Phase.locked ∧
     (login (lockVault (setup initState "123456" "123456").2).2
         "000000").2.pinRecord =
       (lockVault (setup initState "123456" "123456").2).2.pinRecord ∧
     (login (lockVault (setup initState "123456" "123456").2).2
         "000000").2.vaultBlob =
       (lockVault (setup initState "123456" "123456").2).2.vaultBlob ∧
     (login ((login (lockVault (setup initState "123456" "123456").2).2
         "000000").2) "123456").1 = Except.ok ()) :=
  ⟨by decide, by decide, by decide,
    c2_wrong_pin_rejected "123456" "000000" (by decide) (by decide) (by decide)⟩

/-- C3: in every reachable state PinRecord exists iff VaultBlob exists;
`reset()` removes both artifacts in its single atomic step and returns the
system to the first-run `Uninitialized` state, and the post-reset state is
itself a reachable state, so no reachable state has exactly one of the two
artifacts wiped. -/
theorem c3_pin_vault_pairing (s : SystemState) (h : Reachable s) :
    (s.pinRecord.isSome ↔ s.vaultBlob.isSome) ∧
    (reset s).1 = Except.ok () ∧
    (reset s).2.pinRecord = none ∧
    (reset s).2.vaultBlob = none ∧
    (reset s).2.phase = Phase.uninitialized ∧
    Reachable (reset s).2 := by
  refine ⟨(reachable_artifactInv s h).1, rfl, rfl, rfl, rfl, ?_⟩
  exact Reachable.step s Op.resetOp h

theorem c3_pin_vault_pairing_witness :
    ((applyOp initState (Op.setupOp "123456" "123456")).pinRecord.isSome ↔
       (applyOp initState (Op.setupOp "123456" "123456")).vaultBlob.isSome) ∧
    (reset (applyOp initState (Op.setupOp "123456" "123456"))).1 =
      Except.ok () ∧
    (reset (applyOp initState (Op.setupOp "123456" "123456"))).2.pinRecord =
      none ∧
    (reset (applyOp initState (Op.setupOp "123456" "123456"))).2.vaultBlob =
      none ∧
    (reset (applyOp initState (Op.setupOp "123456" "123456"))).2.phase =
      Phase.uninitialized ∧
    Reachable (reset (applyOp initState (Op.setupOp "123456" "123456"))).2 :=
  c3_pin_vault_pairing _
    (Reachable.step initState (Op.setupOp "123456" "123456") Reachable.init)

/-- C4: `reset()` is total and idempotent: from any state it returns
success and leaves the system `Uninitialized`, a second consecutive
`reset()` again returns success and leaves it `Uninitialized`, and the
second call changes nothing. -/
theorem c4_reset_idempotent_total (s : SystemState) :
    (reset s).1 = Except.ok () ∧
    (reset s).2.phase = Phase.uninitialized ∧
    (reset (reset s).2).1 = Except.ok () ∧
    (reset (reset s).2).2.phase = Phase.uninitialized ∧
    (reset (reset s).2).2 = (reset s).2 :=
  ⟨rfl, rfl, rfl, rfl, rfl⟩

/-- C5: a draft whose name is empty after trimming is rejected by both
`create` and `update` with `NAME_REQUIRED`, the state (PinRecord,
VaultBlob, everything) is left untouched — so validation failed before any
Vault interaction, the rejected draft never appears in a subsequent
`list()`, and on `update` every pre-existing profile is still present
unchanged. -/
theorem c5_empty_name_rejected (s : SystemState) (d : Draft) (i : Nat)
    (h : strTrim d.name = "") :
    (createProfile s d).1 = Except.error VError.nameRequired ∧
    (createProfile s d).2 = s ∧
    listProfiles (createProfile s d).2 = listProfiles s ∧
    (updateProfile s i d).1 = Except.error VError.nameRequired ∧
    (updateProfile s i d).2 = s ∧
    listProfiles (updateProfile s i d).2 = listProfiles s := by
  simp [createProfile, updateProfile, h]

theorem c5_empty_name_rejected_witness :
    (strTrim "" = "") ∧
    ((createProfile (setup initState "123456" "123456").2
        { name := "", host := "x", port := none, user := "", authMaterial := "" }).1 =
      Except.error VError.nameRequired ∧
     (createProfile (setup initState "123456" "123456").2
        { name := "", host := "x", port := none, user := "", authMaterial := "" }).2 =
      (setup initState "123456" "123456").2 ∧
     listProfiles (createProfile (setup initState "123456" "123456").2
        { name := "", host := "x", port := none, user := "", authMaterial := "" }).2 =
      listProfiles (setup initState "123456" "123456").2 ∧
     (updateProfile (setup initState "123456" "123456").2 0
        { name := "", host := "x", port := none, user := "", authMaterial := "" }).1 =
      Except.error VError.nameRequired ∧
     (updateProfile (setup initState "123456" "123456").2 0
        { name := "", host := "x", port := none, user := "", authMaterial := "" }).2 =
      (setup initState "123456" "123456").2 ∧
     listProfiles (updateProfile (setup initState "123456" "123456").2 0
        { name := "", host := "x", port := none, user := "", authMaterial := "" }).2 =
      listProfiles (setup initState "123456" "123456").2) :=
  ⟨by decide,
    c5_empty_name_rejected (setup initState "123456" "123456").2
      { name := "", host := "x", port := none, user := "", authMaterial := "" }
      0 (by decide)⟩

/-- C6: a PIN that is not exactly a 6-digit numeric string is rejected by
both `setup` (whatever the confirm field holds, in particular when it
equals the PIN) and `login` with `FormatError`, the state is returned
unchanged, and the KeyDeriver invocation counter shows KeyDeriver was never
invoked. -/
theorem c6_bad_format_rejected_before_kdf (pin confirm : String)
    (s : SystemState) (h : pinFormatValid pin = false) :
    (setup s pin confirm).1 = Except.error VError.formatError ∧
    (setup s pin confirm).2 = s ∧
    (setup s pin confirm).2.kdfCalls = s.kdfCalls ∧
    (login s pin).1 = Except.error VError.formatError ∧
    (login s pin).2 = s ∧
    (login s pin).2.kdfCalls = s.kdfCalls := by
  simp [setup, login, h]

theorem c6_bad_format_rejected_before_kdf_witness :
    pinFormatValid "1234" = false ∧
    ((setup initState "1234" "1234").1 = Except.error VError.formatError ∧
     (setup initState "1234" "1234").2 = initState ∧
     (setup initState "1234" "1234").2.kdfCalls = initState.kdfCalls ∧
     (login initState "1234").1 = Except.error VError.formatError ∧
     (login initState "1234").2 = initState ∧
     (login initState "1234").2.kdfCalls = initState.kdfCalls) :=
  ⟨by decide,
    c6_bad_format_rejected_before_kdf "1234" "1234" initState (by decide)⟩

/-- C7: one `connect` attempt against an unreachable host drives the
per-profile session state machine along exactly
`Idle → Connecting → Failed(Unreachable)`; each hop is a transition of the
machine and the `Connected` state is never entered during the attempt. -/
theorem c7_unreachable_connect_trace :
    connectAttemptTrace TransportResult.unreachable =
      [SessionState.idle, SessionState.connecting,
        SessionState.failed FailureKind.unreachable] ∧
    SessionState.connected ∉ connectAttemptTrace TransportResult.unreachable ∧
    sessionNext SessionState.idle SessionEvent.connectRequested =
      some SessionState.connecting ∧
    sessionNext SessionState.connecting
        (transportEvent TransportResult.unreachable) =
      some (SessionState.failed FailureKind.unreachable) := by
  decide

/-- C8: an `Advisory` outcome is delivered on the non-error suggestion
channel and never on the hard-error channel, while the transport failures
(`Unreachable`, `AuthenticationRejected`) are delivered on the hard-error
channel and never as a suggestion. -/
theorem c8_advisory_never_hard_error :
    channelFor FailureKind.advisory = PresentationChannel.suggestionChannel ∧
    channelFor FailureKind.advisory ≠ PresentationChannel.hardErrorModal ∧
    channelFor FailureKind.unreachable = PresentationChannel.hardErrorModal ∧
    channelFor FailureKind.unreachable ≠ PresentationChannel.suggestionChannel ∧
    channelFor FailureKind.authenticationRejected =
      PresentationChannel.hardErrorModal ∧
    channelFor FailureKind.authenticationRejected ≠
      PresentationChannel.suggestionChannel ∧
    (∀ k : FailureKind,
      channelFor k = PresentationChannel.suggestionChannel ↔
        k = FailureKind.advisory) := by
  refine ⟨rfl, by decide, rfl, by decide, rfl, by decide, ?_⟩
  intro k
  cases k <;> simp [channelFor]

/-- C9: an operation that needs vault key material — saving a profile, or
connect on a profile — requested while the vault is `Locked` does not fail
with an error: the gated flow demands a PIN entry, and after the
successful login the requested operation completes with its normal result
(the save returns the created profile, the connect fetches the profile
from the registry and runs the session attempt for the transport outcome),
each equal to the direct operation on the unlocked vault. -/
theorem c9_locked_demands_pin_then_completes (p : String)
    (hp : pinFormatValid p = true) (s : SystemState) (h : LockedInv p s)
    (d : Draft) (hn : strTrim d.name ≠ "") (hh : strTrim d.host ≠ "")
    (i : Nat) (tr : TransportResult) (ps : List Profile) (n : Nat)
    (hvb : s.vaultBlob =
      some { encKey := derive p 0, plaintext := ps, nonce := n })
    (q : Profile) (hqmem : q ∈ ps) (hqid : q.id = i) :
    (runGated s p (fun u => createProfile u d)).demandedPin = true ∧
    (login s p).1 = Except.ok () ∧
    (runGated s p (fun u => createProfile u d)).result =
      (createProfile (login s p).2 d).1 ∧
    (runGated s p (fun u => createProfile u d)).next =
      (createProfile (login s p).2 d).2 ∧
    (∃ prof,
      (runGated s p (fun u => createProfile u d)).result = Except.ok prof ∧
      prof.name = d.name ∧ prof.host = d.host) ∧
    (runGated s p (fun u => connectProfile u i tr)).demandedPin = true ∧
    (runGated s p (fun u => connectProfile u i tr)).result =
      (connectProfile (login s p).2 i tr).1 ∧
    (runGated s p (fun u => connectProfile u i tr)).next =
      (connectProfile (login s p).2 i tr).2 ∧
    (runGated s p (fun u => connectProfile u i tr)).result =
      Except.ok (connectAttemptTrace tr) := by
  obtain ⟨hlok, hunl, hvbeq⟩ := login_ok_of_lockedInv p hp s h
  have hpair : login s p = (Except.ok (), (login s p).2) := by
    rw [← hlok]
  have hph := h.1
  have hred1 : runGated s p (fun u => createProfile u d) =
      { demandedPin := true
        result := (createProfile (login s p).2 d).1
        next := (createProfile (login s p).2 d).2 } := by
    unfold runGated
    rw [hph, hpair]
  have hred2 : runGated s p (fun u => connectProfile u i tr) =
      { demandedPin := true
        result := (connectProfile (login s p).2 i tr).1
        next := (connectProfile (login s p).2 i tr).2 } := by
    unfold runGated
    rw [hph, hpair]
  obtain ⟨prof, hpr1, hpr2, hpr3⟩ := createProfile_ok p _ d hunl hn hh
  obtain ⟨hph2, hprec2, hck2, qs, m, hvb2, hmp2⟩ := hunl
  rw [hvbeq, hvb] at hvb2
  injection hvb2 with hblob
  injection hblob with he hps hnm
  subst hps
  obtain ⟨r, hr⟩ := find_some_of_mem_id ps q i hqmem hqid
  have hconn : (connectProfile (login s p).2 i tr).1 =
      Except.ok (connectAttemptTrace tr) := by
    simp [connectProfile, getProfile, hph2, hmp2, hr]
  rw [hred1, hred2]
  exact ⟨rfl, hlok, rfl, rfl, ⟨prof, hpr1, hpr2, hpr3⟩, rfl, rfl, rfl, hconn⟩

theorem c9_locked_demands_pin_witness :
    pinFormatValid "123456" = true ∧
    LockedInv "123456" lockedDemoWithProfile ∧
    strTrim sampleDraft.name ≠ "" ∧
    strTrim sampleDraft.host ≠ "" ∧
    lockedDemoWithProfile.vaultBlob =
      some { encKey := derive "123456" 0, plaintext := [sampleProfile],
             nonce := 1 } ∧
    sampleProfile ∈ [sampleProfile] ∧
    sampleProfile.id = 0 ∧
    ((runGated lockedDemoWithProfile "123456"
        (fun u => createProfile u sampleDraft)).demandedPin = true ∧
     (login lockedDemoWithProfile "123456").1 = Except.ok () ∧
     (runGated lockedDemoWithProfile "123456"
        (fun u => createProfile u sampleDraft)).result =
       (createProfile (login lockedDemoWithProfile "123456").2 sampleDraft).1 ∧
     (runGated lockedDemoWithProfile "123456"
        (fun u => createProfile u sampleDraft)).next =
       (createProfile (login lockedDemoWithProfile "123456").2 sampleDraft).2 ∧
     (∃ prof,
       (runGated lockedDemoWithProfile "123456"
          (fun u => createProfile u sampleDraft)).result = Except.ok prof ∧
       prof.name = sampleDraft.name ∧ prof.host = sampleDraft.host) ∧
     (runGated lockedDemoWithProfile "123456"
        (fun u => connectProfile u 0 TransportResult.unreachable)).demandedPin =
       true ∧
     (runGated lockedDemoWithProfile "123456"
        (fun u => connectProfile u 0 TransportResult.unreachable)).result =
       (connectProfile (login lockedDemoWithProfile "123456").2 0
          TransportResult.unreachable).1 ∧
     (runGated lockedDemoWithProfile "123456"
        (fun u => connectProfile u 0 TransportResult.unreachable)).next =
       (connectProfile (login lockedDemoWithProfile "123456").2 0
          TransportResult.unreachable).2 ∧
     (runGated lockedDemoWithProfile "123456"
        (fun u => connectProfile u 0 TransportResult.unreachable)).result =
       Except.ok (connectAttemptTrace TransportResult.unreachable)) :=
  ⟨by decide,
    ⟨by decide, by decide, [sampleProfile], 1, by decide⟩,
    by decide, by decide, by decide, by decide, by decide,
    c9_locked_demands_pin_then_completes "123456" (by decide)
      lockedDemoWithProfile
      ⟨by decide, by decide, [sampleProfile], 1, by decide⟩
      sampleDraft (by decide) (by decide) 0 TransportResult.unreachable
      [sampleProfile] 1 (by decide) sampleProfile (by decide) (by decide)⟩

/-- C10: a single failed login imposes no lockout: after setup with `p` and
a lock, one rejected login with any `w ≠ p` is immediately followed by a
successful `login(p)` that unlocks the vault. -/
theorem c10_no_lockout_after_failure (p w : String)
    (hp : pinFormatValid p = true) (hne : w ≠ p) :
    (∃ e, (login (lockVault (setup initState p p).2).2 w).1 =
      Except.error e) ∧
    (login ((login (lockVault (setup initState p p).2).2 w).2) p).1 =
      Except.ok () ∧
    (login ((login (lockVault (setup initState p p).2).2 w).2) p).2.phase =
      Phase.unlocked := by
  have hL := setup_lock_lockedInv p hp
  by_cases hw : pinFormatValid w = true
  · have hwp := login_wrong_pin p w hw hne _ hL
    have hok := login_ok_of_lockedInv p hp _ hwp.2.2.2.2
    exact ⟨⟨VError.wrongPin, hwp.1⟩, hok.1, hok.2.1.1⟩
  · have hbad := login_badFormat w (by simpa using hw)
      (lockVault (setup initState p p).2).2
    have hok := login_ok_of_lockedInv p hp _ hL
    refine ⟨⟨VError.formatError, ?_⟩, ?_, ?_⟩
    · rw [hbad]
    · rw [hbad]
      exact hok.1
    · rw [hbad]
      exact hok.2.1.1

theorem c10_no_lockout_witness :
    pinFormatValid "123456" = true ∧
    "000000" ≠ "123456" ∧
    ((∃ e, (login (lockVault (setup initState "123456" "123456").2).2
        "000000").1 = Except.error e) ∧
     (login ((login (lockVault (setup initState "123456" "123456").2).2
        "000000").2) "123456").1 = Except.ok () ∧
     (login ((login (lockVault (setup initState "123456" "123456").2).2
        "000000").2) "123456").2.phase = Phase.unlocked) :=
  ⟨by decide, by decide,
    c10_no_lockout_after_failure "123456" "000000" (by decide) (by decide)⟩
